import Mathlib

/-!
Shallow embedding of `src/main.py` (a single-user library catalog manager).

`Book` models the Python class `Book` for well-typed records (the ones the
catalog itself constructs); `PyBook`/`JValue` model the untyped dictionaries
that `Book.to_dict` / `Book.from_dict` exchange with the JSON store, since
Python performs no type checking there.  `Library` state is the pair
(`books`, `next_id`); the store handle is abstracted away and each mutating
operation instead reports through a `saved` flag whether `save_books` was
invoked.  Printing is modelled by outcome enums.
-/

/-- A catalog record, mirroring the attributes set in `Book.__init__`
(plus the mutable `status` attribute). -/
structure Book where
  id : Int
  title : String
  author : String
  year : Int
  status : String
deriving DecidableEq, Repr

/-- `Book.__init__`: the constructor always starts with status "в наличии"
("available"). -/
def Book.init (book_id : Int) (title author : String) (year : Int) : Book :=
  { id := book_id, title := title, author := author, year := year,
    status := "в наличии" }

/-- JSON scalar values, as far as the store's record entries need them. -/
inductive JValue where
  | jnull : JValue
  | jbool : Bool → JValue
  | jint : Int → JValue
  | jstr : String → JValue
deriving DecidableEq, Repr

/-- A parsed JSON object: association list from keys to values. -/
abbrev JDict := List (String × JValue)

/-- Dictionary lookup, `data[key]` returning `none` where Python raises
`KeyError`. -/
def JDict.get? (d : JDict) (k : String) : Option JValue :=
  (d.find? (fun p => p.1 == k)).map (fun p => p.2)

/-- The raw result of `Book.from_dict`: Python assigns the dictionary values
to the five attributes without any type check, so each field holds an
arbitrary JSON value. -/
structure PyBook where
  id : JValue
  title : JValue
  author : JValue
  year : JValue
  status : JValue
deriving DecidableEq, Repr

/-- `Book.to_dict` on a well-typed record: the five fields in order. -/
def Book.to_dict (b : Book) : JDict :=
  [("id", JValue.jint b.id), ("title", JValue.jstr b.title),
   ("author", JValue.jstr b.author), ("year", JValue.jint b.year),
   ("status", JValue.jstr b.status)]

/-- `Book.from_dict`: reads the five keys; a missing key is Python's
uncaught `KeyError`, modelled as `Except.error`.  No type is checked. -/
def Book.from_dict (d : JDict) : Except String PyBook :=
  match d.get? "id", d.get? "title", d.get? "author", d.get? "year",
        d.get? "status" with
  | some i, some t, some a, some y, some s =>
      Except.ok { id := i, title := t, author := a, year := y, status := s }
  | _, _, _, _, _ => Except.error "KeyError"

/-- Whether a store entry carries all five required keys. -/
def hasAllKeys (d : JDict) : Bool :=
  (d.get? "id").isSome && (d.get? "title").isSome && (d.get? "author").isSome
    && (d.get? "year").isSome && (d.get? "status").isSome

/-- The list comprehension `[Book.from_dict(book) for book in data]`:
entries are converted left to right and the first `KeyError` propagates. -/
def fromDictAll : List JDict → Except String (List PyBook)
  | [] => Except.ok []
  | d :: ds =>
    match Book.from_dict d with
    | Except.error e => Except.error e
    | Except.ok b =>
      match fromDictAll ds with
      | Except.error e => Except.error e
      | Except.ok bs => Except.ok (b :: bs)

/-- Outcome of opening and JSON-parsing the store file, the part of
`Library.load_books` delegated to `open`/`json.load`. -/
inductive StoreRead where
  | fileNotFound : StoreRead
  | jsonDecodeError : StoreRead
  | parsed : List JDict → StoreRead

/-- `Library.load_books`: a missing file and a JSON parse failure are both
caught and yield the empty list; any `KeyError` raised by `Book.from_dict`
on a parsed entry is not caught and propagates. -/
def load_books : StoreRead → Except String (List PyBook)
  | StoreRead.fileNotFound => Except.ok []
  | StoreRead.jsonDecodeError => Except.ok []
  | StoreRead.parsed entries => fromDictAll entries

/-- Python's `year.isdigit()` on the ASCII fragment: non-empty and all
decimal digits.  Extensionally this is `String.isNat`, stated over the
character list so that it reduces on concrete inputs. -/
def pyIsdigit (s : String) : Bool :=
  !s.data.isEmpty && s.data.all (fun c => c.isDigit)

/-- Decimal value of a digit string, the same fold `String.toNat?` uses. -/
def pyIntNat (s : String) : Nat :=
  s.data.foldl (fun n c => n * 10 + (c.toNat - Char.toNat '0')) 0

/-- Python's `int(year)` for the digit strings on which the code calls it
(after `isdigit` succeeded); its value on other strings is irrelevant to
the embedded code paths. -/
def pyInt (s : String) : Int :=
  (pyIntNat s : Int)

/-- `Library.validate_year`: raises `ValueError` unless the text is a digit
string denoting an integer in `(0, current_year]`.  Pure: it takes no
catalog state and returns none. -/
def validate_year (current_year : Int) (year : String) : Except String Unit :=
  if ¬ (pyIsdigit year = true) ∨ ¬ (0 < pyInt year ∧ pyInt year ≤ current_year)
  then Except.error "Некорректный год. Укажите год в диапазоне от 1 до текущего года."
  else Except.ok ()

/-- In-memory state of `Library`: the ordered book list and the cached
`next_id` counter.  The storage file name plays no role in the embedded
logic. -/
structure Library where
  books : List Book
  next_id : Int
deriving Repr

/-- `Library.get_next_id`: 1 on the empty catalog, otherwise
`max(book.id for book in books) + 1` (Python's `max` over a non-empty
sequence is a left fold of binary `max`). -/
def get_next_id (books : List Book) : Int :=
  match books with
  | [] => 1
  | b :: rest => rest.foldl (fun m x => max m x.id) b.id + 1

/-- `Library.__init__`: load the books, then cache `get_next_id`. -/
def Library.construct (loaded : List Book) : Library :=
  { books := loaded, next_id := get_next_id loaded }

/-- Result reported by `Library.add_book`. -/
inductive AddOutcome where
  | success : AddOutcome
  | yearError : AddOutcome
deriving DecidableEq, Repr

/-- Result of a mutating catalog operation: the new state, the printed
outcome, and whether `save_books` was called. -/
structure AddResult where
  lib : Library
  outcome : AddOutcome
  saved : Bool
deriving Repr

/-- `Library.add_book`: validate the year text (a `ValueError` is caught and
reported, leaving everything unchanged); on success append
`Book(next_id, title, author, int(year))`, increment `next_id`, save. -/
def Library.add_book (lib : Library) (current_year : Int)
    (title author year : String) : AddResult :=
  match validate_year current_year year with
  | Except.error _ => { lib := lib, outcome := AddOutcome.yearError, saved := false }
  | Except.ok _ =>
      { lib := { books := lib.books ++ [Book.init lib.next_id title author (pyInt year)],
                 next_id := lib.next_id + 1 },
        outcome := AddOutcome.success, saved := true }

/-- Result reported by `Library.remove_book`. -/
inductive RemoveOutcome where
  | removed : RemoveOutcome
  | notFound : RemoveOutcome
deriving DecidableEq, Repr

/-- Loop body of `Library.remove_book`: drop the first book whose `id`
matches (Python's `list.remove` on the object found by the scan), reporting
whether one was found. -/
def removeFirstById (books : List Book) (book_id : Int) :
    List Book × RemoveOutcome :=
  match books with
  | [] => ([], RemoveOutcome.notFound)
  | b :: rest =>
    if b.id = book_id then (rest, RemoveOutcome.removed)
    else
      let r := removeFirstById rest book_id
      (b :: r.1, r.2)

/-- Result of `Library.remove_book`. -/
structure RemoveResult where
  lib : Library
  outcome : RemoveOutcome
  saved : Bool
deriving Repr

/-- `Library.remove_book`: linear scan; on a hit remove and save, otherwise
report not-found.  `next_id` is not touched. -/
def Library.remove_book (lib : Library) (book_id : Int) : RemoveResult :=
  let r := removeFirstById lib.books book_id
  { lib := { books := r.1, next_id := lib.next_id },
    outcome := r.2, saved := r.2 = RemoveOutcome.removed }

/-- Result reported by `Library.update_status`. -/
inductive UpdateOutcome where
  | updated : UpdateOutcome
  | invalidStatus : UpdateOutcome
  | notFound : UpdateOutcome
deriving DecidableEq, Repr

/-- Loop body of `Library.update_status`: find the first book with the id;
only then check the new status against the two enum literals; update and
save on success.  Falling off the loop reports not-found. -/
def updateStatusBooks (books : List Book) (book_id : Int)
    (new_status : String) : List Book × UpdateOutcome × Bool :=
  match books with
  | [] => ([], UpdateOutcome.notFound, false)
  | b :: rest =>
    if b.id = book_id then
      if new_status = "в наличии" ∨ new_status = "выдана" then
        ({ b with status := new_status } :: rest, UpdateOutcome.updated, true)
      else (b :: rest, UpdateOutcome.invalidStatus, false)
    else
      let r := updateStatusBooks rest book_id new_status
      (b :: r.1, r.2.1, r.2.2)

/-- Result of `Library.update_status`. -/
structure UpdateResult where
  lib : Library
  outcome : UpdateOutcome
  saved : Bool
deriving Repr

/-- `Library.update_status` at the state level; `next_id` is not touched. -/
def Library.update_status (lib : Library) (book_id : Int)
    (new_status : String) : UpdateResult :=
  let r := updateStatusBooks lib.books book_id new_status
  { lib := { books := r.1, next_id := lib.next_id },
    outcome := r.2.1, saved := r.2.2 }

/-- The attribute names of `Book` that `getattr` can resolve; search
criteria keys range over these. -/
inductive BookField where
  | id : BookField
  | title : BookField
  | author : BookField
  | year : BookField
  | status : BookField
deriving DecidableEq, Repr

/-- Python's `str(getattr(book, key))`: the field value stringified
(`str` of an `int` for `id` and `year`, identity on the text fields). -/
def Book.getattrStr (b : Book) : BookField → String
  | BookField.id => toString b.id
  | BookField.title => b.title
  | BookField.author => b.author
  | BookField.year => toString b.year
  | BookField.status => b.status

/-- Python's `str.lower()` on the ASCII fragment (extensionally
`String.toLower`, written over the character list so that it reduces). -/
def pyLower (s : String) : String := String.mk (s.data.map Char.toLower)

/-- The `any(...)` generator inside `Library.search_books`: does some
provided criterion compare equal, case-insensitively, to the stringified
field? -/
def matchesAny (b : Book) (criteria : List (BookField × String)) : Bool :=
  criteria.any (fun kv => pyLower (b.getattrStr kv.1) == pyLower kv.2)

/-- `Library.search_books`: the loop accumulating (in catalog order) the
books for which `matchesAny` holds. -/
def search_books (books : List Book) (criteria : List (BookField × String)) :
    List Book :=
  match books with
  | [] => []
  | b :: rest =>
    if matchesAny b criteria then b :: search_books rest criteria
    else search_books rest criteria

/-- One driver-level catalog operation, relating a state to its successor:
any `add_book` (at any current year), `remove_book`, or `update_status`
call. -/
inductive Step : Library → Library → Prop where
  | add (lib : Library) (current_year : Int) (title author year : String) :
      Step lib (lib.add_book current_year title author year).lib
  | remove (lib : Library) (book_id : Int) :
      Step lib (lib.remove_book book_id).lib
  | update (lib : Library) (book_id : Int) (new_status : String) :
      Step lib (lib.update_status book_id new_status).lib

/-- States reachable from construction on a given loaded book list by any
sequence of catalog operations. -/
def Reachable (loaded : List Book) (s : Library) : Prop :=
  Relation.ReflTransGen Step (Library.construct loaded) s

/-- The ids held by a catalog state are pairwise distinct. -/
def distinctIds (books : List Book) : Prop :=
  (books.map Book.id).Nodup

/-- Spec-side matching predicate for search: at least one provided
criterion's value, compared as case-insensitive text, equals the
stringified value of the record's corresponding field. -/
def specMatches (b : Book) (criteria : List (BookField × String)) : Prop :=
  ∃ kv ∈ criteria, pyLower kv.2 = pyLower (b.getattrStr kv.1)

/-! ### Bridging lemmas for the string primitives -/

theorem data_isEmpty (s : String) : s.data.isEmpty = s.isEmpty := by
  rw [Bool.eq_iff_iff, String.isEmpty_iff, List.isEmpty_iff, String.ext_iff]

theorem pyIsdigit_eq_isNat (s : String) : pyIsdigit s = String.isNat s := by
  unfold pyIsdigit String.isNat
  rw [String.all_eq, data_isEmpty]

theorem pyIntNat_eq_foldl (s : String) :
    s.foldl (fun n c => n * 10 + (c.toNat - Char.toNat '0')) 0 = pyIntNat s := by
  rw [String.foldl_eq]; rfl

theorem toNat?_eq_pyIsdigit (s : String) :
    s.toNat? = if pyIsdigit s then some (pyIntNat s) else none := by
  rw [String.toNat?, pyIsdigit_eq_isNat, pyIntNat_eq_foldl]

/-! ### Search lemmas -/

theorem search_books_eq_filter (books : List Book)
    (criteria : List (BookField × String)) :
    search_books books criteria = books.filter (fun b => matchesAny b criteria) := by
  induction books with
  | nil => rfl
  | cons b rest ih =>
    by_cases h : matchesAny b criteria
    · simp [search_books, List.filter_cons, h, ih]
    · simp [search_books, List.filter_cons, h, ih]

theorem matchesAny_iff_specMatches (b : Book)
    (criteria : List (BookField × String)) :
    matchesAny b criteria = true ↔ specMatches b criteria := by
  unfold matchesAny specMatches
  rw [List.any_eq_true]
  constructor
  · rintro ⟨kv, hmem, heq⟩
    exact ⟨kv, hmem, (beq_iff_eq.mp heq).symm⟩
  · rintro ⟨kv, hmem, heq⟩
    exact ⟨kv, hmem, beq_iff_eq.mpr heq.symm⟩

/-! ### Fold-max lemmas for `get_next_id` -/

theorem le_foldl_max (l : List Book) (a : Int) :
    a ≤ l.foldl (fun m x => max m x.id) a := by
  induction l generalizing a with
  | nil => exact le_refl a
  | cons x rest ih => exact le_trans (le_max_left a x.id) (ih (max a x.id))

theorem mem_le_foldl_max (l : List Book) (a : Int) (b : Book) (hb : b ∈ l) :
    b.id ≤ l.foldl (fun m x => max m x.id) a := by
  induction l generalizing a with
  | nil => cases hb
  | cons x rest ih =>
    rcases List.mem_cons.mp hb with rfl | hb
    · exact le_trans (le_max_right a b.id) (le_foldl_max rest (max a b.id))
    · exact ih (max a x.id) hb

theorem foldl_max_cases (l : List Book) (a : Int) :
    l.foldl (fun m x => max m x.id) a = a ∨
      ∃ b ∈ l, l.foldl (fun m x => max m x.id) a = b.id := by
  induction l generalizing a with
  | nil => exact Or.inl rfl
  | cons x rest ih =>
    rcases ih (max a x.id) with h | ⟨b, hb, h⟩
    · rcases max_choice a x.id with hm | hm
      · exact Or.inl (by rw [List.foldl_cons, h, hm])
      · exact Or.inr ⟨x, List.mem_cons_self x rest, by rw [List.foldl_cons, h, hm]⟩
    · exact Or.inr ⟨b, List.mem_cons_of_mem x hb, by rw [List.foldl_cons, h]⟩

theorem mem_id_lt_get_next_id (books : List Book) (b : Book) (hb : b ∈ books) :
    b.id < get_next_id books := by
  cases books with
  | nil => cases hb
  | cons x rest =>
    rcases List.mem_cons.mp hb with rfl | hb
    · exact lt_of_le_of_lt (le_foldl_max rest b.id) (lt_add_one _)
    · exact lt_of_le_of_lt (mem_le_foldl_max rest x.id b hb) (lt_add_one _)

/-! ### Lemmas about `updateStatusBooks` and `removeFirstById` -/

theorem updateStatusBooks_map_id (books : List Book) (book_id : Int)
    (st : String) :
    ((updateStatusBooks books book_id st).1).map Book.id = books.map Book.id := by
  induction books with
  | nil => rfl
  | cons b rest ih =>
    by_cases h : b.id = book_id
    · by_cases hst : st = "в наличии" ∨ st = "выдана"
      · simp [updateStatusBooks, h, hst]
      · simp [updateStatusBooks, h, hst]
    · simp [updateStatusBooks, h, ih]

theorem updateStatusBooks_invalid (books : List Book) (book_id : Int)
    (st : String) (hst : ¬ (st = "в наличии" ∨ st = "выдана")) :
    (updateStatusBooks books book_id st).1 = books ∧
    (updateStatusBooks books book_id st).2.2 = false ∧
    ((∃ b ∈ books, b.id = book_id) →
      (updateStatusBooks books book_id st).2.1 = UpdateOutcome.invalidStatus) ∧
    ((∀ b ∈ books, b.id ≠ book_id) →
      (updateStatusBooks books book_id st).2.1 = UpdateOutcome.notFound) := by
  induction books with
  | nil => exact ⟨rfl, rfl, fun ⟨b, hb, _⟩ => absurd hb (List.not_mem_nil b), fun _ => rfl⟩
  | cons b rest ih =>
    by_cases h : b.id = book_id
    · refine ⟨?_, ?_, fun _ => ?_, fun hall => ?_⟩
      · simp [updateStatusBooks, h, hst]
      · simp [updateStatusBooks, h, hst]
      · simp [updateStatusBooks, h, hst]
      · exact absurd h (hall b (List.mem_cons_self b rest))
    · refine ⟨?_, ?_, fun hex => ?_, fun hall => ?_⟩
      · simp [updateStatusBooks, h, ih.1]
      · simp [updateStatusBooks, h, ih.2.1]
      · rcases hex with ⟨c, hc, hcid⟩
        rcases List.mem_cons.mp hc with rfl | hc
        · exact absurd hcid h
        · simp [updateStatusBooks, h, ih.2.2.1 ⟨c, hc, hcid⟩]
      · simp [updateStatusBooks, h,
          ih.2.2.2 (fun c hc => hall c (List.mem_cons_of_mem b hc))]

theorem updateStatusBooks_found (books : List Book) (book_id : Int)
    (st : String) (hst : st = "в наличии" ∨ st = "выдана")
    (hex : ∃ b ∈ books, b.id = book_id) :
    ∃ pre b post, books = pre ++ b :: post ∧ (∀ c ∈ pre, c.id ≠ book_id) ∧
      b.id = book_id ∧
      updateStatusBooks books book_id st =
        (pre ++ { b with status := st } :: post, UpdateOutcome.updated, true) := by
  induction books with
  | nil => rcases hex with ⟨b, hb, _⟩; exact absurd hb (List.not_mem_nil b)
  | cons b rest ih =>
    by_cases h : b.id = book_id
    · refine ⟨[], b, rest, rfl, fun c hc => absurd hc (List.not_mem_nil c), h, ?_⟩
      simp [updateStatusBooks, h, hst]
    · have hex' : ∃ c ∈ rest, c.id = book_id := by
        rcases hex with ⟨c, hc, hcid⟩
        rcases List.mem_cons.mp hc with rfl | hc
        · exact absurd hcid h
        · exact ⟨c, hc, hcid⟩
      rcases ih hex' with ⟨pre, c, post, hsplit, hpre, hcid, heq⟩
      refine ⟨b :: pre, c, post, by rw [hsplit, List.cons_append], ?_, hcid, ?_⟩
      · intro d hd
        rcases List.mem_cons.mp hd with rfl | hd
        · exact h
        · exact hpre d hd
      · simp [updateStatusBooks, h, heq, List.cons_append]

theorem removeFirstById_sublist (books : List Book) (book_id : Int) :
    List.Sublist (removeFirstById books book_id).1 books := by
  induction books with
  | nil => exact List.Sublist.refl []
  | cons b rest ih =>
    by_cases h : b.id = book_id
    · simp only [removeFirstById, h, if_pos]
      exact List.sublist_cons_self b rest
    · simp only [removeFirstById, h, if_neg, not_false_iff]
      exact List.Sublist.cons₂ b ih

/-! ### Lemmas about `Book.from_dict` and loading -/

theorem from_dict_isOk (d : JDict) :
    (Book.from_dict d).isOk = hasAllKeys d := by
  unfold Book.from_dict hasAllKeys
  rcases h1 : d.get? "id" with _ | v1 <;>
    rcases h2 : d.get? "title" with _ | v2 <;>
      rcases h3 : d.get? "author" with _ | v3 <;>
        rcases h4 : d.get? "year" with _ | v4 <;>
          rcases h5 : d.get? "status" with _ | v5 <;>
            simp [Except.isOk, Except.toBool]

theorem fromDictAll_not_ok (entries : List JDict)
    (hbad : ∃ d ∈ entries, hasAllKeys d = false) :
    (fromDictAll entries).isOk = false := by
  induction entries with
  | nil => rcases hbad with ⟨d, hd, _⟩; exact absurd hd (List.not_mem_nil d)
  | cons d ds ih =>
    rcases hfd : Book.from_dict d with e | b
    · simp [fromDictAll, hfd, Except.isOk, Except.toBool]
    · have hk : hasAllKeys d = true := by
        rw [← from_dict_isOk, hfd]; rfl
      rcases hbad with ⟨d', hd', hbad'⟩
      rcases List.mem_cons.mp hd' with rfl | hd'
      · rw [hk] at hbad'; cases hbad'
      · have := ih ⟨d', hd', hbad'⟩
        rcases hall : fromDictAll ds with e | bs
        · simp [fromDictAll, hfd, hall, Except.isOk, Except.toBool]
        · rw [hall] at this; cases this

/-! ### Invariant preservation for the catalog step relation -/

theorem step_preserves_inv (s s' : Library)
    (hinv : distinctIds s.books ∧ ∀ b ∈ s.books, b.id < s.next_id)
    (hstep : Step s s') :
    distinctIds s'.books ∧ ∀ b ∈ s'.books, b.id < s'.next_id := by
  rcases hinv with ⟨hnd, hlt⟩
  cases hstep with
  | add cur t a y =>
    rcases h : validate_year cur y with e | u
    · simp only [Library.add_book, h]
      exact ⟨hnd, hlt⟩
    · simp only [Library.add_book, h]
      constructor
      · unfold distinctIds at hnd ⊢
        rw [List.map_append, List.nodup_append]
        refine ⟨hnd, List.nodup_singleton _, ?_⟩
        intro x hx hx'
        rcases List.mem_map.mp hx with ⟨b, hb, rfl⟩
        rcases List.mem_singleton.mp hx' with h'
        simp only [Book.init] at h'
        exact absurd h' (ne_of_lt (hlt b hb))
      · intro b hb
        rcases List.mem_append.mp hb with hb | hb
        · exact lt_trans (hlt b hb) (lt_add_one _)
        · rcases List.mem_singleton.mp hb with rfl
          simp only [Book.init]
          exact lt_add_one _
  | remove book_id =>
    have hsub := removeFirstById_sublist s.books book_id
    constructor
    · exact List.Nodup.sublist (List.Sublist.map Book.id hsub) hnd
    · intro b hb
      exact hlt b (hsub.subset hb)
  | update book_id st =>
    have hmap := updateStatusBooks_map_id s.books book_id st
    constructor
    · have hgoal : (List.map Book.id (updateStatusBooks s.books book_id st).1).Nodup := by
        rw [hmap]; exact hnd
      exact hgoal
    · intro b hb
      have hmem : b.id ∈ (updateStatusBooks s.books book_id st).1.map Book.id :=
        List.mem_map.mpr ⟨b, hb, rfl⟩
      rw [hmap] at hmem
      rcases List.mem_map.mp hmem with ⟨c, hc, hcid⟩
      rw [← hcid]
      exact hlt c hc

/-! ### Claim theorems -/

/-- C1.  `searchBooks` returns, in catalog order, exactly the records for
which at least one provided criterion's value equals the record's
corresponding field stringified, compared case-insensitively — an OR across
criteria, not an AND; concretely, a record matching only the first of two
provided criteria is still returned. -/
theorem search_books_or_semantics :
    (∀ (books : List Book) (criteria : List (BookField × String)),
      search_books books criteria =
        books.filter (fun b => matchesAny b criteria))
    ∧ (∀ (books : List Book) (criteria : List (BookField × String)) (b : Book),
        b ∈ search_books books criteria ↔ b ∈ books ∧ specMatches b criteria)
    ∧ search_books [Book.init 1 "Dune" "Herbert" 1965]
        [(BookField.title, "dune"), (BookField.author, "nobody")]
        = [Book.init 1 "Dune" "Herbert" 1965] := by
  refine ⟨search_books_eq_filter, fun books criteria b => ?_, by decide⟩
  rw [search_books_eq_filter, List.mem_filter, matchesAny_iff_specMatches]

/-- C10.  `searchBooks` with an empty criteria mapping returns the empty
sequence on every catalog: with nothing provided, `any` over no criteria is
false for every record. -/
theorem search_books_empty_criteria (books : List Book) :
    search_books books [] = [] := by
  induction books with
  | nil => rfl
  | cons b rest ih => simp [search_books, matchesAny, ih]

/-- C7.  `nextAvailableId` returns 1 on the empty catalog and otherwise the
maximum of the existing record ids plus one. -/
theorem get_next_id_spec :
    get_next_id [] = 1 ∧
    ∀ books : List Book, books ≠ [] →
      ∃ m : Int, m ∈ books.map Book.id ∧ (∀ x ∈ books.map Book.id, x ≤ m) ∧
        get_next_id books = m + 1 := by
  refine ⟨rfl, fun books hne => ?_⟩
  cases books with
  | nil => exact absurd rfl hne
  | cons b rest =>
    refine ⟨rest.foldl (fun m (x : Book) => max m x.id) b.id, ?_, ?_, rfl⟩
    · rcases foldl_max_cases rest b.id with h | ⟨c, hc, h⟩
      · rw [h]
        exact List.mem_map.mpr ⟨b, List.mem_cons_self b rest, rfl⟩
      · rw [h]
        exact List.mem_map.mpr ⟨c, List.mem_cons_of_mem b hc, rfl⟩
    · intro x hx
      rcases List.mem_map.mp hx with ⟨c, hc, rfl⟩
      rcases List.mem_cons.mp hc with rfl | hc
      · exact le_foldl_max rest c.id
      · exact mem_le_foldl_max rest b.id c hc

/-- C7 witness: on a concrete two-record catalog with ids 3 and 7, the
maximum id is 7 and `get_next_id` returns 8. -/
theorem get_next_id_spec_witness :
    ([Book.init 3 "a" "b" 2000, Book.init 7 "c" "d" 1999] : List Book) ≠ [] ∧
    ∃ m : Int,
      m ∈ ([Book.init 3 "a" "b" 2000, Book.init 7 "c" "d" 1999].map Book.id) ∧
      (∀ x ∈ [Book.init 3 "a" "b" 2000, Book.init 7 "c" "d" 1999].map Book.id,
        x ≤ m) ∧
      get_next_id [Book.init 3 "a" "b" 2000, Book.init 7 "c" "d" 1999] = m + 1 :=
  ⟨by decide,
   get_next_id_spec.2 [Book.init 3 "a" "b" 2000, Book.init 7 "c" "d" 1999]
     (by decide)⟩

/-- C8.  Serialization round-trip: `from_dict (to_dict r)` succeeds and
returns exactly the five fields of `r` (id, title, author, year and the
possibly non-default status), each wrapped as the JSON value `to_dict`
emitted for it. -/
theorem to_dict_from_dict_roundtrip (b : Book) :
    Book.from_dict (Book.to_dict b) =
      Except.ok { id := JValue.jint b.id, title := JValue.jstr b.title,
                  author := JValue.jstr b.author, year := JValue.jint b.year,
                  status := JValue.jstr b.status } := rfl

/-- C2.  From construction on any loaded book list with pairwise-distinct
ids (in particular the empty catalog of a fresh store), every state
reachable by `add_book` / `remove_book` / `update_status` steps has
pairwise-distinct ids, and every id present stays strictly below the
`next_id` counter, so the counter never reassigns an id still in the
catalog, even after removals create gaps. -/
theorem catalog_reachable_ids_distinct (loaded : List Book) (s : Library)
    (hld : distinctIds loaded) (hr : Reachable loaded s) :
    distinctIds s.books ∧ ∀ b ∈ s.books, b.id < s.next_id := by
  induction hr with
  | refl =>
    exact ⟨hld, fun b hb => mem_id_lt_get_next_id loaded b hb⟩
  | tail _ hstep ih =>
    exact step_preserves_inv _ _ ih hstep

/-- C2 witness: after adding two books to a fresh empty catalog and then
removing the first, the surviving state has distinct ids. -/
theorem catalog_reachable_ids_distinct_witness :
    distinctIds (((((Library.construct []).add_book 2025 "T" "A"
        "2000").lib.add_book 2025 "U" "B" "1999").lib.remove_book 1).lib).books :=
  (catalog_reachable_ids_distinct []
    (((((Library.construct []).add_book 2025 "T" "A"
        "2000").lib.add_book 2025 "U" "B" "1999").lib.remove_book 1).lib)
    List.Pairwise.nil
    (Relation.ReflTransGen.tail
      (Relation.ReflTransGen.tail
        (Relation.ReflTransGen.tail Relation.ReflTransGen.refl
          (Step.add (Library.construct []) 2025 "T" "A" "2000"))
        (Step.add ((Library.construct []).add_book 2025 "T" "A" "2000").lib
          2025 "U" "B" "1999"))
      (Step.remove (((Library.construct []).add_book 2025 "T" "A"
          "2000").lib.add_book 2025 "U" "B" "1999").lib 1))).1

/-- Helper for C6: `validate_year` reports an error exactly when the input
does not parse as a natural number in `(0, current_year]`. -/
theorem validate_year_error_iff (cur : Int) (y : String) :
    (∃ e, validate_year cur y = Except.error e) ↔
      ¬ ∃ n : Nat, y.toNat? = some n ∧ 0 < n ∧ (n : Int) ≤ cur := by
  rw [toNat?_eq_pyIsdigit]
  unfold validate_year
  by_cases hd : pyIsdigit y = true
  · rw [if_pos hd]
    by_cases hr : 0 < pyInt y ∧ pyInt y ≤ cur
    · rw [if_neg (by push_neg; exact ⟨hd, hr⟩)]
      constructor
      · rintro ⟨e, he⟩; cases he
      · intro hno
        exact absurd ⟨pyIntNat y, rfl, Int.natCast_pos.mp hr.1, hr.2⟩ hno
    · rw [if_pos (Or.inr hr)]
      constructor
      · rintro ⟨e, _⟩ ⟨n, hn, h0, hc⟩
        obtain rfl := Option.some.inj hn
        exact hr ⟨Int.natCast_pos.mpr h0, hc⟩
      · intro _
        exact ⟨_, rfl⟩
  · rw [if_pos (Or.inl hd)]
    constructor
    · rintro ⟨e, _⟩ ⟨n, hn, _⟩
      rw [if_neg hd] at hn
      cases hn
    · intro _
      exact ⟨_, rfl⟩

/-- C6.  `validate_year` fails with an error exactly when the text is not a
non-negative integer string or denotes an integer outside `(0, current_year]`;
in particular "0", "-5", "abc" fail for every current year, the text of the
next calendar year fails (concretely "2026" against current year 2025), and
"2000" succeeds whenever the current year is at least 2000.  The function
takes no catalog state, so it has no side effect on it. -/
theorem validate_year_spec :
    (∀ (cur : Int) (y : String),
      (∃ e, validate_year cur y = Except.error e) ↔
        ¬ ∃ n : Nat, y.toNat? = some n ∧ 0 < n ∧ (n : Int) ≤ cur)
    ∧ (∀ cur : Int, ∃ e, validate_year cur "0" = Except.error e)
    ∧ (∀ cur : Int, ∃ e, validate_year cur "-5" = Except.error e)
    ∧ (∀ cur : Int, ∃ e, validate_year cur "abc" = Except.error e)
    ∧ (∃ e, validate_year 2025 "2026" = Except.error e)
    ∧ (∀ cur : Int, 2000 ≤ cur → validate_year cur "2000" = Except.ok ()) := by
  have h0 : "0".toNat? = some 0 := by rw [toNat?_eq_pyIsdigit]; rfl
  have hm5 : "-5".toNat? = none := by rw [toNat?_eq_pyIsdigit]; rfl
  have habc : "abc".toNat? = none := by rw [toNat?_eq_pyIsdigit]; rfl
  have h26 : "2026".toNat? = some 2026 := by rw [toNat?_eq_pyIsdigit]; rfl
  refine ⟨validate_year_error_iff, ?_, ?_, ?_, ?_, ?_⟩
  · intro cur
    refine (validate_year_error_iff cur "0").mpr ?_
    rintro ⟨n, hn, hpos, _⟩
    rw [h0] at hn
    obtain rfl := Option.some.inj hn
    exact absurd hpos (by decide)
  · intro cur
    refine (validate_year_error_iff cur "-5").mpr ?_
    rintro ⟨n, hn, _⟩
    rw [hm5] at hn
    cases hn
  · intro cur
    refine (validate_year_error_iff cur "abc").mpr ?_
    rintro ⟨n, hn, _⟩
    rw [habc] at hn
    cases hn
  · refine (validate_year_error_iff 2025 "2026").mpr ?_
    rintro ⟨n, hn, _, hle⟩
    rw [h26] at hn
    obtain rfl := Option.some.inj hn
    exact absurd hle (by decide)
  · intro cur hcur
    unfold validate_year
    have hcond : ¬ (¬ (pyIsdigit "2000" = true)
        ∨ ¬ (0 < pyInt "2000" ∧ pyInt "2000" ≤ cur)) := by
      push_neg
      exact ⟨rfl, by decide, le_trans (by decide : pyInt "2000" ≤ 2000) hcur⟩
    rw [if_neg hcond]

/-- C6 witness: at current year 2025 the examples instantiate — "2000" is
accepted and "0" is rejected. -/
theorem validate_year_spec_witness :
    ((2000 : Int) ≤ 2025 ∧ validate_year 2025 "2000" = Except.ok ())
    ∧ (∃ e, validate_year 2025 "0" = Except.error e) :=
  ⟨⟨by decide, validate_year_spec.2.2.2.2.2 2025 (by decide)⟩,
   validate_year_spec.2.1 2025⟩

/-- C5.  `add_book` first validates the year text: on failure the state is
returned unchanged with nothing saved; on success it appends exactly one
record carrying the current `next_id`, the given title and author, the
parsed year and the default status, increments `next_id`, and saves. -/
theorem add_book_spec :
    ∀ (lib : Library) (cur : Int) (t a y : String),
      ((∃ e, validate_year cur y = Except.error e) →
        lib.add_book cur t a y =
          { lib := lib, outcome := AddOutcome.yearError, saved := false })
      ∧ (validate_year cur y = Except.ok () →
        lib.add_book cur t a y =
          { lib := { books := lib.books ++
                       [{ id := lib.next_id, title := t, author := a,
                          year := pyInt y, status := "в наличии" }],
                     next_id := lib.next_id + 1 },
            outcome := AddOutcome.success, saved := true }) := by
  intro lib cur t a y
  constructor
  · rintro ⟨e, he⟩
    simp [Library.add_book, he]
  · intro h
    simp [Library.add_book, h, Book.init]

/-- C5 witness: adding "T"/"A"/"2000" to a fresh empty catalog at current
year 2025 appends the record with id 1 and increments the counter to 2,
while adding with year text "abc" leaves the catalog untouched. -/
theorem add_book_spec_witness :
    validate_year 2025 "2000" = Except.ok ()
    ∧ (Library.construct []).add_book 2025 "T" "A" "2000" =
        { lib := { books := [{ id := 1, title := "T", author := "A",
                               year := 2000, status := "в наличии" }],
                   next_id := 2 },
          outcome := AddOutcome.success, saved := true }
    ∧ (∃ e, validate_year 2025 "abc" = Except.error e)
    ∧ (Library.construct []).add_book 2025 "T" "A" "abc" =
        { lib := Library.construct [], outcome := AddOutcome.yearError,
          saved := false } :=
  ⟨rfl,
   (add_book_spec (Library.construct []) 2025 "T" "A" "2000").2 rfl,
   ⟨"Некорректный год. Укажите год в диапазоне от 1 до текущего года.", rfl⟩,
   (add_book_spec (Library.construct []) 2025 "T" "A" "abc").1
     ⟨"Некорректный год. Укажите год в диапазоне от 1 до текущего года.", rfl⟩⟩

/-- C4 counterexample: with the catalog empty (so id 1 is absent) and the
invalid status "lost", `update_status` reports not-found, not
`InvalidStatusError` — the id check precedes the status check, so the claim
quantified over ids that need not exist fails. -/
theorem update_status_notfound_over_invalid_cex :
    ¬ ("lost" = "в наличии" ∨ "lost" = "выдана")
    ∧ ((Library.construct []).update_status 1 "lost").outcome
        = UpdateOutcome.notFound
    ∧ UpdateOutcome.notFound ≠ UpdateOutcome.invalidStatus :=
  ⟨by decide, rfl, by decide⟩

/-- C4 amended.  For an invalid new status, `update_status` never mutates
the book list, never touches `next_id`, and never saves; it reports
`InvalidStatusError` when some record carries the id, and not-found when no
record does. -/
theorem update_status_invalid_frame :
    ∀ (lib : Library) (book_id : Int) (st : String),
      ¬ (st = "в наличии" ∨ st = "выдана") →
      (lib.update_status book_id st).lib = lib
      ∧ (lib.update_status book_id st).saved = false
      ∧ ((∃ b ∈ lib.books, b.id = book_id) →
          (lib.update_status book_id st).outcome = UpdateOutcome.invalidStatus)
      ∧ ((∀ b ∈ lib.books, b.id ≠ book_id) →
          (lib.update_status book_id st).outcome = UpdateOutcome.notFound) := by
  intro lib book_id st hst
  obtain ⟨h1, h2, h3, h4⟩ := updateStatusBooks_invalid lib.books book_id st hst
  refine ⟨?_, h2, h3, h4⟩
  cases lib with
  | mk books next_id =>
    simp only [Library.update_status] at h1 ⊢
    rw [h1]

/-- C4 witness: on a one-book catalog holding id 1, updating id 1 to "lost"
reports `InvalidStatusError` and changes nothing. -/
theorem update_status_invalid_frame_witness :
    ¬ ("lost" = "в наличии" ∨ "lost" = "выдана")
    ∧ (∃ b ∈ (Library.construct [Book.init 1 "t" "a" 2000]).books,
        b.id = (1 : Int))
    ∧ ((Library.construct [Book.init 1 "t" "a" 2000]).update_status 1
        "lost").lib = Library.construct [Book.init 1 "t" "a" 2000]
    ∧ ((Library.construct [Book.init 1 "t" "a" 2000]).update_status 1
        "lost").outcome = UpdateOutcome.invalidStatus :=
  ⟨by decide, ⟨Book.init 1 "t" "a" 2000, by decide, by decide⟩,
   (update_status_invalid_frame (Library.construct [Book.init 1 "t" "a" 2000])
     1 "lost" (by decide)).1,
   (update_status_invalid_frame (Library.construct [Book.init 1 "t" "a" 2000])
     1 "lost" (by decide)).2.2.1
     ⟨Book.init 1 "t" "a" 2000, by decide, by decide⟩⟩

/-- C9.  Updating an existing id to a valid status changes exactly the
first record carrying that id, and only its status field: the list splits
around that record, everything before and after is returned unchanged in
order, `next_id` is untouched, the outcome is success and the state is
saved. -/
theorem update_status_existing_frame :
    ∀ (lib : Library) (book_id : Int) (st : String),
      (st = "в наличии" ∨ st = "выдана") →
      (∃ b ∈ lib.books, b.id = book_id) →
      ∃ pre b post,
        lib.books = pre ++ b :: post
        ∧ (∀ c ∈ pre, c.id ≠ book_id)
        ∧ b.id = book_id
        ∧ (lib.update_status book_id st).lib.books
            = pre ++ { b with status := st } :: post
        ∧ (lib.update_status book_id st).lib.next_id = lib.next_id
        ∧ (lib.update_status book_id st).outcome = UpdateOutcome.updated
        ∧ (lib.update_status book_id st).saved = true := by
  intro lib book_id st hst hex
  rcases updateStatusBooks_found lib.books book_id st hst hex with
    ⟨pre, b, post, hsplit, hpre, hid, heq⟩
  refine ⟨pre, b, post, hsplit, hpre, hid, ?_, rfl, ?_, ?_⟩
  · show (updateStatusBooks lib.books book_id st).1 = _
    rw [heq]
  · show (updateStatusBooks lib.books book_id st).2.1 = _
    rw [heq]
  · show (updateStatusBooks lib.books book_id st).2.2 = _
    rw [heq]

/-- C9 witness: on a two-book catalog, updating id 2 to "выдана" succeeds
with the claimed frame. -/
theorem update_status_existing_frame_witness :
    ("выдана" = "в наличии" ∨ "выдана" = "выдана")
    ∧ (∃ b ∈ (Library.construct [Book.init 1 "t" "a" 2000,
        Book.init 2 "u" "b" 1999]).books, b.id = (2 : Int))
    ∧ ∃ pre b post,
        (Library.construct [Book.init 1 "t" "a" 2000,
          Book.init 2 "u" "b" 1999]).books = pre ++ b :: post
        ∧ (∀ c ∈ pre, c.id ≠ (2 : Int))
        ∧ b.id = (2 : Int)
        ∧ ((Library.construct [Book.init 1 "t" "a" 2000,
            Book.init 2 "u" "b" 1999]).update_status 2 "выдана").lib.books
            = pre ++ { b with status := "выдана" } :: post
        ∧ ((Library.construct [Book.init 1 "t" "a" 2000,
            Book.init 2 "u" "b" 1999]).update_status 2 "выдана").lib.next_id
            = (Library.construct [Book.init 1 "t" "a" 2000,
               Book.init 2 "u" "b" 1999]).next_id
        ∧ ((Library.construct [Book.init 1 "t" "a" 2000,
            Book.init 2 "u" "b" 1999]).update_status 2 "выдана").outcome
            = UpdateOutcome.updated
        ∧ ((Library.construct [Book.init 1 "t" "a" 2000,
            Book.init 2 "u" "b" 1999]).update_status 2 "выдана").saved
            = true :=
  ⟨Or.inr rfl, ⟨Book.init 2 "u" "b" 1999, by decide, by decide⟩,
   update_status_existing_frame
     (Library.construct [Book.init 1 "t" "a" 2000, Book.init 2 "u" "b" 1999])
     2 "выдана" (Or.inr rfl)
     ⟨Book.init 2 "u" "b" 1999, by decide, by decide⟩⟩

/-- C3 counterexample: a store entry with all five keys present but every
value of the wrong basic type is accepted by `from_dict` without error, and
a parsed store holding one entry that merely lacks the other keys makes the
load fail with an uncaught `KeyError` instead of recovering with the empty
sequence. -/
theorem from_dict_wrong_types_accepted_cex :
    Book.from_dict
        [("id", JValue.jstr "x"), ("title", JValue.jint 1),
         ("author", JValue.jnull), ("year", JValue.jbool true),
         ("status", JValue.jint 2)]
      = Except.ok { id := JValue.jstr "x", title := JValue.jint 1,
                    author := JValue.jnull, year := JValue.jbool true,
                    status := JValue.jint 2 }
    ∧ load_books (StoreRead.parsed [[("id", JValue.jint 1)]])
        = Except.error "KeyError"
    ∧ (load_books (StoreRead.parsed [[("id", JValue.jint 1)]])).isOk = false :=
  ⟨rfl, rfl, rfl⟩

/-- C3 amended.  `from_dict` fails (with a `KeyError`) exactly when one of
the five required keys is absent — present values of the wrong type are
accepted unchecked — and such a malformed entry makes the whole load
propagate the error rather than recover; only a missing store file or a
store unparseable as JSON is recovered with the empty sequence. -/
theorem from_dict_missing_key_and_load_propagation :
    (∀ d : JDict, (Book.from_dict d).isOk = hasAllKeys d)
    ∧ (∀ entries : List JDict, (∃ d ∈ entries, hasAllKeys d = false) →
        (load_books (StoreRead.parsed entries)).isOk = false)
    ∧ load_books StoreRead.fileNotFound = Except.ok []
    ∧ load_books StoreRead.jsonDecodeError = Except.ok [] :=
  ⟨from_dict_isOk, fun entries h => fromDictAll_not_ok entries h, rfl, rfl⟩

/-- C3 witness: an entry carrying only a title lacks required keys, and
loading a store made of it does not succeed. -/
theorem from_dict_missing_key_witness :
    (∃ d ∈ ([[("title", JValue.jstr "t")]] : List JDict),
      hasAllKeys d = false)
    ∧ (load_books (StoreRead.parsed [[("title", JValue.jstr "t")]])).isOk
        = false :=
  ⟨by decide,
   from_dict_missing_key_and_load_propagation.2.1
     [[("title", JValue.jstr "t")]] (by decide)⟩
